/-
Verification of the ingestion-and-store core of the Streamlit MQTT
dashboard (`src/app.py`): payload decoders, bounded history streams,
last-value caches, the `on_message` / `on_connect` callbacks and the
connectivity-status query.

Shallow embedding conventions:
* Python `datetime.now()` is modelled by an explicit receipt instant
  `now : Int` (epoch seconds), passed to every function that calls it.
* `json.loads` is a library call; its result is modelled by an input of
  type `Option Json` (`none` when `json.loads` raises), carried next to
  the raw decoded text of the payload.
* `PIL` image decoding (`parse_image_payload`) is likewise modelled by
  an `Option ImageFrame` input; its internals are library calls with no
  design content relevant to the claims.
* Machine integers do not overflow in the modelled code paths (Python
  ints are unbounded), so `Int`/`Nat` are used directly.
-/
import Mathlib

/-- Modelled Python/JSON value as produced by `json.loads`:
`null` is both JSON `null` and Python `None`. Numbers are modelled as
integers (the claims only involve integer-valued fields). -/
inductive Json where
  | null : Json
  | bool : Bool → Json
  | num : Int → Json
  | str : String → Json
  | arr : List Json → Json
  | obj : List (String × Json) → Json

/-- `HISTORY_MAX = 2000` from the CONFIG section of `src/app.py`. -/
def HISTORY_MAX : Nat := 2000

/-- Topic constant `TOPIC_SENSOR` from `src/app.py`. -/
def TOPIC_SENSOR : String := "esp32/motion/datasensor"

/-- Topic constant `TOPIC_PRED` from `src/app.py`. -/
def TOPIC_PRED : String := "esp32/motion/prediction"

/-- Topic constant `TOPIC_GAMBAR` from `src/app.py`. -/
def TOPIC_GAMBAR : String := "esp32/motion/gambar"

/-- A timezone-aware datetime in the configured local timezone
(`Asia/Jakarta`, UTC+7).  It carries the underlying instant (epoch
seconds); `astimezone` does not change the instant, only its rendering,
so conversion is captured by the `hour` computation below. -/
structure WibDateTime where
  epochSec : Int
deriving DecidableEq, Repr

/-- `to_wib(datetime.now())` in `src/app.py`: the naive `datetime.now()`
is tagged as UTC and converted to `Asia/Jakarta`; the instant is
unchanged. -/
def toWib (now : Int) : WibDateTime := ⟨now⟩

/-- The `.hour` attribute of a WIB datetime: hour of day at UTC+7. -/
def WibDateTime.hour (t : WibDateTime) : Int :=
  (t.epochSec / 3600 + 7) % 24

/-- Python `dict` lookup on a JSON object.  `json.loads` builds the dict
left to right, so a duplicated key keeps the last binding. -/
def pyLookup (fields : List (String × Json)) (k : String) : Option Json :=
  ((fields.filter (fun p => p.1 == k)).getLast?).map Prod.snd

/-- Python `d.get(k)` (default `None`): the stored value, or `null`
(Python `None`) when the key is absent. -/
def pyGet (fields : List (String × Json)) (k : String) : Json :=
  (pyLookup fields k).getD .null

/-- Python `d.get(k, default)`: the stored value (even if it is `null`),
or `default` when the key is absent. -/
def pyGetD (fields : List (String × Json)) (k : String) (d : Json) : Json :=
  (pyLookup fields k).getD d

/-- Python `str.strip` whitespace test (ASCII whitespace). -/
def pyIsSpace (c : Char) : Bool :=
  c = ' ' || c = '\t' || c = '\n' || c = '\r' || c = '\x0b' || c = '\x0c'

/-- Python `str.strip()`: drop whitespace from both ends. -/
def pyStrip (s : String) : String :=
  ⟨((s.data.dropWhile pyIsSpace).reverse.dropWhile pyIsSpace).reverse⟩

/-- Python `str.upper()` (ASCII case mapping). -/
def pyUpper (s : String) : String := ⟨s.data.map Char.toUpper⟩

/-- Python `str.lower()` (ASCII case mapping). -/
def pyLower (s : String) : String := ⟨s.data.map Char.toLower⟩

/-- Python `int(x)` on a decoded JSON value: succeeds on ints and bools,
on numeric strings, and fails (raises) otherwise — e.g. on `None`,
non-numeric strings, lists and dicts. -/
def pyInt : Json → Option Int
  | .num n => some n
  | .bool b => some (if b then 1 else 0)
  | .str s => (pyStrip s).toInt?
  | _ => none

/-- Decoded sensor record built by `parse_sensor_payload`. -/
structure SensorSample where
  timestamp : WibDateTime
  pir_value : Int
  hour : Int
  is_night : Int
deriving DecidableEq, Repr

/-- Decoded prediction record built by `parse_prediction_payload`.
`label` and `confidence` hold the raw Python values stored in the dict
(`null` = Python `None`, i.e. absent confidence). -/
structure PredictionSample where
  timestamp : WibDateTime
  label : Json
  confidence : Json

/-- `parse_sensor_payload` from `src/app.py` (lines 65–77).  `parsed` is
the modelled result of `json.loads payload_str`.  The `try` block fails
(returning `None`) when `json.loads` raises, when `data` is not a dict
(`.get` raises `AttributeError`), or when `int(...)` raises on one of
the three field values. -/
def parse_sensor_payload (now : Int) (parsed : Option Json) : Option SensorSample :=
  match parsed with
  | some (.obj data) =>
    match pyInt (pyGetD data "pir_value" (.num 0)),
          pyInt (pyGetD data "hour" (.num (toWib now).hour)),
          pyInt (pyGetD data "is_night" (.num 0)) with
    | some p, some h, some n =>
      some { timestamp := toWib now, pir_value := p, hour := h, is_night := n }
    | _, _, _ => none
  | _ => none

/-- The fixed plain-text lookup table of `parse_prediction_payload`:
`mapping.get(t, t.lower())` on the trimmed, uppercased payload text. -/
def predictionTextLabel (t : String) : String :=
  if t = "NO MOTION DETECT" then "no_motion"
  else if t = "NORMAL MOTION DETECT" then "normal_motion"
  else if t = "SUSPICIOUS MOTION DETECT" then "suspicious_motion"
  else pyLower t

/-- `parse_prediction_payload` from `src/app.py` (lines 79–96).
`parsed` models `json.loads payload_str` (`none` when it raises, which
is the only statement in the `try` block that can raise, so the `except`
fallback runs exactly then).  A dict with neither a nested `prediction`
dict nor a `label` key — and any non-dict JSON value — falls off the end
of the function and returns `None`. -/
def parse_prediction_payload (now : Int) (parsed : Option Json)
    (payload_str : String) : Option PredictionSample :=
  match parsed with
  | some (.obj d) =>
    match pyLookup d "prediction" with
    | some (.obj p) =>
      some { timestamp := toWib now, label := pyGet p "label",
             confidence := pyGet p "confidence" }
    | _ =>
      match pyLookup d "label" with
      | some lv =>
        some { timestamp := toWib now, label := lv,
               confidence := pyGet d "confidence" }
      | none => none
  | some _ => none
  | none =>
    let t := pyUpper (pyStrip payload_str)
    some { timestamp := toWib now, label := .str (predictionTextLabel t),
           confidence := .null }

/-- Abstract in-memory bitmap as produced by `parse_image_payload`
(base64 + image decoding are library calls, modelled abstractly). -/
structure ImageFrame where
  bitmap : List Nat
deriving DecidableEq, Repr

/-- Append to a `collections.deque` with `maxlen = cap` (`cap > 0` in
this program): when the deque is full the oldest (leftmost) element is
discarded as the new one is appended on the right. -/
def dequeAppend {α : Type} (cap : Nat) (q : List α) (x : α) : List α :=
  if q.length = cap then q.tail ++ [x] else q ++ [x]

/-- The `st.session_state.mqtt_storage` dict of `src/app.py`
(lines 40–50), minus the `client` handle (opaque network object). -/
structure Storage where
  sensors : List SensorSample
  predictions : List PredictionSample
  last_sensor : Option SensorSample
  last_prediction : Option PredictionSample
  last_image : Option ImageFrame
  connected : Bool
  last_update : Option WibDateTime

/-- The initial `mqtt_storage` value: empty streams, absent caches,
disconnected. -/
def initStorage : Storage :=
  { sensors := [], predictions := [], last_sensor := none,
    last_prediction := none, last_image := none, connected := false,
    last_update := none }

/-- One inbound MQTT message as seen by `on_message`: its topic, the
UTF-8 text of its payload (`payload.decode("utf-8", errors="ignore")`,
which never raises), the modelled `json.loads` result on that text, and
the modelled `parse_image_payload` result on the raw bytes. -/
structure Msg where
  topic : String
  text : String
  parsed : Option Json
  image : Option ImageFrame

/-- `on_message` from `src/app.py` (lines 123–148).  The whole body is
wrapped in `try/except`, so the Python callback never raises to the
network loop; the model is correspondingly a total function.  The
`if item:` / `if pred:` / `if img:` truthiness tests pass exactly when
the decoder returned a value (the returned dicts are non-empty, hence
truthy). -/
def on_message (now : Int) (st : Storage) (m : Msg) : Storage :=
  if m.topic = TOPIC_SENSOR then
    match parse_sensor_payload now m.parsed with
    | some item =>
      { st with sensors := dequeAppend HISTORY_MAX st.sensors item,
                last_sensor := some item,
                last_update := some (toWib now) }
    | none => st
  else if m.topic = TOPIC_PRED then
    match parse_prediction_payload now m.parsed m.text with
    | some pred =>
      { st with predictions := dequeAppend HISTORY_MAX st.predictions pred,
                last_prediction := some pred,
                last_update := some (toWib now) }
    | none => st
  else if m.topic = TOPIC_GAMBAR then
    match m.image with
    | some img =>
      { st with last_image := some img,
                last_update := some (toWib now) }
    | none => st
  else st

/-- `on_connect` from `src/app.py` (lines 114–121): reason code `0`
sets `connected = True` (and subscribes), any other reason code sets
`connected = False`. -/
def on_connect (st : Storage) (rc : Int) : Storage :=
  if rc = 0 then { st with connected := true }
  else { st with connected := false }

/-- The connect-error path of `start_mqtt` (`src/app.py` lines 157–162):
a network-level error from `client.connect` sets `connected = False`
and returns without starting the loop. -/
def start_mqtt_connect_error (st : Storage) : Storage :=
  { st with connected := false }

/-- The MQTT connectivity-status query of the UI (`src/app.py`
line 211): renders the boolean `connected` flag. -/
def statusText (st : Storage) : String :=
  if st.connected then "🟢 Connected" else "🔴 Disconnected"

/-- Modelled from the spec: `clear_all()` belongs to the Stream Store
(spec §4.3) but is absent from `src/app.py` (only the storage dict it
would act on is present).  Per the spec it "empties every stream and
the image slot and resets both last-value caches and `last_update` to
absent". -/
def clear_all (st : Storage) : Storage :=
  { st with sensors := [], predictions := [], last_sensor := none,
            last_prediction := none, last_image := none,
            last_update := none }

/-- The last-value caches agree with the tails of their streams, and
are absent exactly when the streams are empty. -/
def cacheInv (st : Storage) : Prop :=
  st.last_sensor = st.sensors.getLast? ∧
  st.last_prediction = st.predictions.getLast?

/-- Whether a decoded JSON value takes one of the two structured
branches of `parse_prediction_payload`: a dict with a nested
`prediction` dict, or a dict with a top-level `label` key. -/
def jsonPredMatch : Json → Bool
  | .obj d =>
    (match pyLookup d "prediction" with
     | some (.obj _) => true
     | _ => false) ||
    (pyLookup d "label").isSome
  | _ => false

/-- An optional JSON value that, when present, is an integer. -/
def isIntField : Option Json → Prop
  | none => True
  | some (.num _) => True
  | _ => False

/-- The integer stored for a sensor field, or the given default when
the field is absent. -/
def intFieldD (o : Option Json) (d : Int) : Int :=
  match o with
  | some (.num n) => n
  | _ => d

/-- Appending one element never raises the length above `cap` (for the
positive capacities this program uses). -/
theorem dequeAppend_length {α : Type} (cap : Nat) (q : List α) (x : α)
    (hcap : 0 < cap) (hq : q.length ≤ cap) :
    (dequeAppend cap q x).length ≤ cap := by
  unfold dequeAppend
  split
  · rename_i h
    have hne : q ≠ [] := by
      intro e
      rw [e] at h
      simp at h
      omega
    simp [List.length_tail]
    omega
  · rename_i h
    simp
    omega

/-- Folding `dequeAppend` over a message list keeps, of the starting
queue followed by the new elements, exactly the most recent `cap`. -/
theorem dequeAppend_foldl {α : Type} (cap : Nat) (q xs : List α)
    (hcap : 0 < cap) (hq : q.length ≤ cap) :
    xs.foldl (dequeAppend cap) q = (q ++ xs).drop (q.length + xs.length - cap) := by
  induction xs generalizing q with
  | nil =>
    have h0 : q.length - cap = 0 := by omega
    simp [h0]
  | cons x xs ih =>
    by_cases h : q.length = cap
    · have hne : q ≠ [] := by
        intro e
        rw [e] at h
        simp at h
        omega
      obtain ⟨a, q', rfl⟩ := List.exists_cons_of_ne_nil hne
      have hlen : q'.length + 1 = cap := by simpa using h
      have hstep : dequeAppend cap (a :: q') x = q' ++ [x] := by
        simp [dequeAppend, h]
      rw [List.foldl_cons, hstep, ih (q' ++ [x]) (by simp; omega)]
      have hidx1 : (q' ++ [x]).length + xs.length - cap = xs.length := by
        simp
        omega
      have hidx2 : (a :: q').length + (x :: xs).length - cap = xs.length + 1 := by
        simp
        omega
      rw [hidx1, hidx2]
      simp [List.append_assoc]
    · have hstep : dequeAppend cap q x = q ++ [x] := by
        simp [dequeAppend, h]
      rw [List.foldl_cons, hstep, ih (q ++ [x]) (by simp; omega)]
      rw [List.append_assoc]
      congr 1
      simp
      omega

/-- Folding `dequeAppend` from the empty queue keeps the most recent
`cap` elements. -/
theorem dequeAppend_foldl_nil {α : Type} (cap : Nat) (xs : List α)
    (hcap : 0 < cap) :
    xs.foldl (dequeAppend cap) [] = xs.drop (xs.length - cap) := by
  simpa using dequeAppend_foldl cap [] xs hcap (by simp)

/-- Length of a fold of `dequeAppend` from the empty queue. -/
theorem dequeAppend_foldl_length {α : Type} (cap : Nat) (xs : List α)
    (hcap : 0 < cap) :
    (xs.foldl (dequeAppend cap) []).length = min xs.length cap := by
  rw [dequeAppend_foldl_nil cap xs hcap, List.length_drop]
  omega

/-- C1: appending `HISTORY_MAX + k` samples into a stream of capacity
`HISTORY_MAX = 2000` leaves exactly `HISTORY_MAX` samples, namely the
`(k+1)`-th through last in insertion order (the oldest `k` are
evicted), and at every intermediate point the stream's length is at
most the capacity. -/
theorem history_capacity_bound {α : Type} (k : Nat) (xs : List α)
    (h : xs.length = HISTORY_MAX + k) :
    xs.foldl (dequeAppend HISTORY_MAX) [] = xs.drop k ∧
    (xs.foldl (dequeAppend HISTORY_MAX) []).length = HISTORY_MAX ∧
    ∀ n : Nat, ((xs.take n).foldl (dequeAppend HISTORY_MAX) []).length ≤ HISTORY_MAX := by
  have hcap : 0 < HISTORY_MAX := by norm_num [HISTORY_MAX]
  refine ⟨?_, ?_, ?_⟩
  · rw [dequeAppend_foldl_nil _ _ hcap, h]
    have hk : HISTORY_MAX + k - HISTORY_MAX = k := by omega
    rw [hk]
  · rw [dequeAppend_foldl_length _ _ hcap, h]
    omega
  · intro n
    rw [dequeAppend_foldl_length _ _ hcap]
    omega

/-- Witness for C1 at a stream of `HISTORY_MAX + 1` concrete samples. -/
theorem history_capacity_bound_witness :
    (List.range (HISTORY_MAX + 1)).length = HISTORY_MAX + 1 ∧
    ((List.range (HISTORY_MAX + 1)).foldl (dequeAppend HISTORY_MAX) [] =
        (List.range (HISTORY_MAX + 1)).drop 1 ∧
      ((List.range (HISTORY_MAX + 1)).foldl (dequeAppend HISTORY_MAX) []).length =
        HISTORY_MAX ∧
      ∀ n : Nat,
        (((List.range (HISTORY_MAX + 1)).take n).foldl
            (dequeAppend HISTORY_MAX) []).length ≤ HISTORY_MAX) :=
  ⟨by simp, history_capacity_bound 1 (List.range (HISTORY_MAX + 1)) (by simp)⟩

/-- C2: a message whose payload fails to decode for its topic leaves
the whole storage unchanged — streams, last-value caches, `last_update`
and the image slot; and `on_message` is a total function (the Python
callback wraps its body in `try/except`, so it never raises to the
network loop), for any topic and any payload. -/
theorem on_message_decode_failure (now : Int) (st : Storage) (m : Msg)
    (hs : m.topic = TOPIC_SENSOR → parse_sensor_payload now m.parsed = none)
    (hp : m.topic = TOPIC_PRED → parse_prediction_payload now m.parsed m.text = none)
    (hi : m.topic = TOPIC_GAMBAR → m.image = none) :
    on_message now st m = st := by
  unfold on_message
  split_ifs with h1 h2 h3
  · rw [hs h1]
  · rw [hp h2]
  · rw [hi h3]
  · rfl

/-- Witness for C2: a non-JSON sensor payload is dropped without any
state change. -/
theorem on_message_decode_failure_witness :
    on_message 0 initStorage
      { topic := TOPIC_SENSOR, text := "not json", parsed := none,
        image := none } = initStorage :=
  on_message_decode_failure 0 initStorage
    { topic := TOPIC_SENSOR, text := "not json", parsed := none,
      image := none }
    (fun _ => rfl)
    (fun h => absurd h (by decide))
    (fun h => absurd h (by decide))

/-- The element just appended is the tail element of the deque. -/
theorem dequeAppend_getLast? {α : Type} (cap : Nat) (q : List α) (x : α) :
    (dequeAppend cap q x).getLast? = some x := by
  unfold dequeAppend
  split <;> simp

/-- One `on_message` step preserves the cache/stream-tail agreement. -/
theorem cacheInv_on_message (now : Int) (st : Storage) (m : Msg)
    (h : cacheInv st) : cacheInv (on_message now st m) := by
  obtain ⟨h1, h2⟩ := h
  unfold on_message
  split_ifs with ht1 ht2 ht3
  · cases hp : parse_sensor_payload now m.parsed with
    | none => exact ⟨h1, h2⟩
    | some item => exact ⟨(dequeAppend_getLast? _ _ _).symm, h2⟩
  · cases hp : parse_prediction_payload now m.parsed m.text with
    | none => exact ⟨h1, h2⟩
    | some pred => exact ⟨h1, (dequeAppend_getLast? _ _ _).symm⟩
  · cases hi : m.image with
    | none => exact ⟨h1, h2⟩
    | some img => exact ⟨h1, h2⟩
  · exact ⟨h1, h2⟩

/-- The cache/stream-tail agreement is preserved by any run of
messages. -/
theorem cacheInv_foldl (evs : List (Int × Msg)) (st : Storage)
    (h : cacheInv st) :
    cacheInv (evs.foldl (fun acc e => on_message e.1 acc e.2) st) := by
  induction evs generalizing st with
  | nil => exact h
  | cons e evs ih => exact ih _ (cacheInv_on_message e.1 st e.2 h)

/-- C6: after any sequence of `on_message` invocations from the initial
storage, each last-value cache equals the most recently appended sample
of its stream (`getLast?` of the stream), and is absent exactly when
the stream is empty. -/
theorem last_cache_matches_stream_tail (evs : List (Int × Msg)) :
    cacheInv (evs.foldl (fun acc e => on_message e.1 acc e.2) initStorage) :=
  cacheInv_foldl evs initStorage ⟨rfl, rfl⟩

/-- C7: `clear_all` empties both streams and the image slot and resets
both last-value caches and `last_update` to absent, so an immediately
following `last` query (the cache, equivalently the stream tail)
returns absent for every stream and for the image slot. -/
theorem clear_all_then_last_absent (st : Storage) :
    (clear_all st).sensors = [] ∧
    (clear_all st).predictions = [] ∧
    (clear_all st).last_sensor = none ∧
    (clear_all st).last_prediction = none ∧
    (clear_all st).last_image = none ∧
    (clear_all st).last_update = none ∧
    (clear_all st).sensors.getLast? = none ∧
    (clear_all st).predictions.getLast? = none :=
  ⟨rfl, rfl, rfl, rfl, rfl, rfl, rfl, rfl⟩

/-- Counterexample to C3: for the non-JSON payload `"FOO BAR"`, the
fallback label is `"foo bar"` — the code lowercases but performs no
space-to-underscore substitution (`mapping.get(t, t.lower())`), so the
claimed label `"foo_bar"` is wrong. -/
theorem prediction_fallback_no_underscore :
    parse_prediction_payload 0 none "FOO BAR" =
      some { timestamp := toWib 0, label := .str "foo bar",
             confidence := .null } ∧
    ("foo bar" : String) ≠ "foo_bar" := by
  constructor
  · rfl
  · decide

/-- C3 (amended): for a prediction payload whose JSON parse fails and
whose trimmed, uppercased text is not one of the three known phrases,
the decoder returns a sample whose label is the trimmed payload text
uppercased then lowercased — spaces are preserved, not replaced by
underscores (plain text `"FOO BAR"` yields label `"foo bar"`) — with
confidence absent. -/
theorem prediction_fallback_passthrough (now : Int) (s : String)
    (h1 : pyUpper (pyStrip s) ≠ "NO MOTION DETECT")
    (h2 : pyUpper (pyStrip s) ≠ "NORMAL MOTION DETECT")
    (h3 : pyUpper (pyStrip s) ≠ "SUSPICIOUS MOTION DETECT") :
    parse_prediction_payload now none s =
      some { timestamp := toWib now,
             label := .str (pyLower (pyUpper (pyStrip s))),
             confidence := .null } := by
  simp [parse_prediction_payload, predictionTextLabel, h1, h2, h3]

/-- Witness for the amended C3 at the payload `"FOO BAR"`. -/
theorem prediction_fallback_passthrough_witness :
    parse_prediction_payload 0 none "FOO BAR" =
      some { timestamp := toWib 0,
             label := .str (pyLower (pyUpper (pyStrip "FOO BAR"))),
             confidence := .null } :=
  prediction_fallback_passthrough 0 "FOO BAR" (by decide) (by decide)
    (by decide)

/-- C5: when the JSON parse of a prediction payload fails, the three
known phrases (after trimming and uppercasing) map through the fixed
table to `no_motion` / `normal_motion` / `suspicious_motion` with
confidence absent; and when the JSON parse succeeds the payload text is
never consulted, i.e. the fallback is reached only when the structural
parse itself fails. -/
theorem prediction_fallback_known_phrases (now : Int) (s : String) :
    (pyUpper (pyStrip s) = "NO MOTION DETECT" →
      parse_prediction_payload now none s =
        some { timestamp := toWib now, label := .str "no_motion",
               confidence := .null }) ∧
    (pyUpper (pyStrip s) = "NORMAL MOTION DETECT" →
      parse_prediction_payload now none s =
        some { timestamp := toWib now, label := .str "normal_motion",
               confidence := .null }) ∧
    (pyUpper (pyStrip s) = "SUSPICIOUS MOTION DETECT" →
      parse_prediction_payload now none s =
        some { timestamp := toWib now, label := .str "suspicious_motion",
               confidence := .null }) ∧
    (∀ j : Json, ∀ s' : String,
      parse_prediction_payload now (some j) s =
        parse_prediction_payload now (some j) s') := by
  refine ⟨?_, ?_, ?_, ?_⟩
  · intro h
    simp [parse_prediction_payload, predictionTextLabel, h]
  · intro h
    simp [parse_prediction_payload, predictionTextLabel, h]
  · intro h
    simp [parse_prediction_payload, predictionTextLabel, h]
  · intro j s'
    cases j <;> rfl

/-- Witness for C5 at the payload `" No Motion Detect "`. -/
theorem prediction_fallback_known_phrases_witness :
    parse_prediction_payload 0 none " No Motion Detect " =
      some { timestamp := toWib 0, label := .str "no_motion",
             confidence := .null } :=
  (prediction_fallback_known_phrases 0 " No Motion Detect ").1 (by decide)

/-- An optional field that satisfies `isIntField` is absent or an
integer. -/
theorem isIntField_elim (o : Option Json) (h : isIntField o) :
    o = none ∨ ∃ n : Int, o = some (.num n) := by
  cases o with
  | none => exact Or.inl rfl
  | some j =>
    cases j with
    | num n => exact Or.inr ⟨n, rfl⟩
    | null => exact False.elim h
    | bool b => exact False.elim h
    | str s => exact False.elim h
    | arr xs => exact False.elim h
    | obj fs => exact False.elim h

/-- C4: a sensor payload that parses as a JSON object whose
`pir_value` / `hour` / `is_night` fields, when present, are integers
decodes to a sample carrying exactly those integers, with `pir_value`
defaulting to `0`, `hour` defaulting to the hour of the receipt instant
(in WIB) and `is_night` defaulting to `0` when absent; a payload whose
JSON parse fails, or that parses to a non-object value, yields a decode
failure. -/
theorem sensor_decode_fields (now : Int) (data : List (String × Json))
    (hp : isIntField (pyLookup data "pir_value"))
    (hh : isIntField (pyLookup data "hour"))
    (hn : isIntField (pyLookup data "is_night")) :
    parse_sensor_payload now (some (.obj data)) =
      some { timestamp := toWib now,
             pir_value := intFieldD (pyLookup data "pir_value") 0,
             hour := intFieldD (pyLookup data "hour") (toWib now).hour,
             is_night := intFieldD (pyLookup data "is_night") 0 } ∧
    parse_sensor_payload now none = none ∧
    (∀ j : Json, (∀ fs, j ≠ .obj fs) → parse_sensor_payload now (some j) = none) := by
  refine ⟨?_, rfl, ?_⟩
  · rcases isIntField_elim _ hp with h1 | ⟨p, h1⟩ <;>
      rcases isIntField_elim _ hh with h2 | ⟨r, h2⟩ <;>
        rcases isIntField_elim _ hn with h3 | ⟨n, h3⟩ <;>
          simp [parse_sensor_payload, pyGetD, pyInt, intFieldD, h1, h2, h3]
  · intro j hj
    cases j with
    | obj fs => exact absurd rfl (hj fs)
    | null => rfl
    | bool b => rfl
    | num n => rfl
    | str s => rfl
    | arr xs => rfl

/-- Witness for C4: a payload supplying `pir_value` and `is_night` but
not `hour`, received at epoch second `7200` (WIB hour 9). -/
theorem sensor_decode_fields_witness :
    parse_sensor_payload 7200
        (some (.obj [("pir_value", .num 1), ("is_night", .num 1)])) =
      some { timestamp := toWib 7200,
             pir_value :=
               intFieldD
                 (pyLookup [("pir_value", .num 1), ("is_night", .num 1)]
                   "pir_value") 0,
             hour :=
               intFieldD
                 (pyLookup [("pir_value", .num 1), ("is_night", .num 1)]
                   "hour") (toWib 7200).hour,
             is_night :=
               intFieldD
                 (pyLookup [("pir_value", .num 1), ("is_night", .num 1)]
                   "is_night") 0 } ∧
    parse_sensor_payload 7200 none = none ∧
    (∀ j : Json, (∀ fs, j ≠ .obj fs) →
      parse_sensor_payload 7200 (some j) = none) :=
  sensor_decode_fields 7200 [("pir_value", .num 1), ("is_night", .num 1)]
    trivial trivial trivial

/-- Any successfully decoded sensor sample is stamped with the receipt
instant converted to WIB. -/
theorem parse_sensor_timestamp (now : Int) (parsed : Option Json)
    (s : SensorSample) (h : parse_sensor_payload now parsed = some s) :
    s.timestamp = toWib now := by
  unfold parse_sensor_payload at h
  split at h
  · split at h
    · injection h with h'
      subst h'
      rfl
    · exact absurd h (by simp)
  · exact absurd h (by simp)

/-- C9: two sensor payloads that agree on every key other than
`timestamp` decode identically at the same receipt instant, and every
decoded sample's timestamp is the receipt instant converted to WIB —
the device-supplied `timestamp` field is never consulted. -/
theorem sensor_timestamp_from_receipt (now : Int)
    (f1 f2 : List (String × Json))
    (h : ∀ k : String, k ≠ "timestamp" → pyLookup f1 k = pyLookup f2 k) :
    parse_sensor_payload now (some (.obj f1)) =
      parse_sensor_payload now (some (.obj f2)) ∧
    (∀ s : SensorSample,
      parse_sensor_payload now (some (.obj f1)) = some s →
      s.timestamp = toWib now) := by
  constructor
  · simp only [parse_sensor_payload, pyGetD]
    rw [h "pir_value" (by decide), h "hour" (by decide),
        h "is_night" (by decide)]
  · intro s hs
    exact parse_sensor_timestamp now (some (.obj f1)) s hs

/-- Witness for C9: adding a device `timestamp` field changes nothing,
and the stored timestamp is the receipt instant. -/
theorem sensor_timestamp_from_receipt_witness :
    (parse_sensor_payload 0
        (some (.obj [("pir_value", .num 1), ("timestamp", .num 999)])) =
      parse_sensor_payload 0 (some (.obj [("pir_value", .num 1)]))) ∧
    (∀ s : SensorSample,
      parse_sensor_payload 0
          (some (.obj [("pir_value", .num 1), ("timestamp", .num 999)])) =
        some s →
      s.timestamp = toWib 0) :=
  sensor_timestamp_from_receipt 0
    [("pir_value", .num 1), ("timestamp", .num 999)]
    [("pir_value", .num 1)]
    (by
      intro k hk
      have ht : ("timestamp" == k) = false := by
        simp only [beq_eq_false_iff_ne]
        exact fun e => hk e.symm
      simp [pyLookup, List.filter_cons, ht])

/-- C10: a prediction payload that parses as JSON but is neither an
object with a nested `prediction` object nor an object with a
top-level `label` key decodes to nothing, the message is dropped with
the storage unchanged, and the plain-text fallback is not applied. -/
theorem prediction_json_reject (now : Int) (j : Json) (s : String)
    (st : Storage) (h : jsonPredMatch j = false) :
    parse_prediction_payload now (some j) s = none ∧
    on_message now st
      { topic := TOPIC_PRED, text := s, parsed := some j,
        image := none } = st := by
  have hparse : parse_prediction_payload now (some j) s = none := by
    cases j with
    | obj d =>
      have h' : jsonPredMatch (Json.obj d) = false := h
      simp only [jsonPredMatch, Bool.or_eq_false_iff] at h'
      obtain ⟨hpred, hlab⟩ := h'
      simp only [parse_prediction_payload]
      cases hp : pyLookup d "prediction" with
      | none =>
        cases hl : pyLookup d "label" with
        | none => rfl
        | some lv =>
          rw [hl] at hlab
          simp at hlab
      | some jp =>
        rw [hp] at hpred
        cases hl : pyLookup d "label" with
        | some lv =>
          rw [hl] at hlab
          simp at hlab
        | none =>
          cases jp with
          | obj p => simp at hpred
          | null => rfl
          | bool b => rfl
          | num n => rfl
          | str s3 => rfl
          | arr xs => rfl
    | null => rfl
    | bool b => rfl
    | num n => rfl
    | str s2 => rfl
    | arr xs => rfl
  refine ⟨hparse, ?_⟩
  dsimp only [on_message]
  rw [if_neg (by decide : ¬TOPIC_PRED = TOPIC_SENSOR), if_pos rfl, hparse]

/-- Witness for C10 at the JSON number payload `5`. -/
theorem prediction_json_reject_witness :
    parse_prediction_payload 0 (some (.num 5)) "5" = none ∧
    on_message 0 initStorage
      { topic := TOPIC_PRED, text := "5", parsed := some (.num 5),
        image := none } = initStorage :=
  prediction_json_reject 0 (.num 5) "5" initStorage (by decide)

/-- Counterexample to C8: the connectivity state of the code is a
single boolean.  A failed connect handshake (non-zero reason code)
leaves the storage literally equal to the disconnected initial state,
and the status query renders both identically, so no state distinct
from both Disconnected and Connected exists or is observable. -/
theorem no_distinct_failed_state :
    on_connect initStorage 1 = initStorage ∧
    statusText (on_connect initStorage 1) = statusText initStorage ∧
    statusText initStorage = "🔴 Disconnected" :=
  ⟨rfl, rfl, rfl⟩

/-- C8 (amended): a non-zero reason code in `on_connect` and a
network-level connect error in `start_mqtt` both set the boolean
connectivity flag to `false`; through the Snapshot status query this
is observable only as the same "Disconnected" rendering as the
ordinary disconnected state — the code has no third `Failed` state. -/
theorem connect_failure_observable (st : Storage) (rc : Int)
    (h : rc ≠ 0) :
    (on_connect st rc).connected = false ∧
    statusText (on_connect st rc) = "🔴 Disconnected" ∧
    (start_mqtt_connect_error st).connected = false ∧
    statusText (start_mqtt_connect_error st) = "🔴 Disconnected" ∧
    statusText initStorage = "🔴 Disconnected" := by
  have h1 : on_connect st rc = { st with connected := false } := by
    unfold on_connect
    rw [if_neg h]
  exact ⟨by rw [h1], by rw [h1]; rfl, rfl, rfl, rfl⟩

/-- Witness for the amended C8 at reason code `5`. -/
theorem connect_failure_observable_witness :
    (on_connect initStorage 5).connected = false ∧
    statusText (on_connect initStorage 5) = "🔴 Disconnected" ∧
    (start_mqtt_connect_error initStorage).connected = false ∧
    statusText (start_mqtt_connect_error initStorage) = "🔴 Disconnected" ∧
    statusText initStorage = "🔴 Disconnected" :=
  connect_failure_observable initStorage 5 (by decide)
